import Mathlib

/-!
Verification of the cloth-recyclability analysis core
(`src/cloth_recyclability_gui.py`) against its specification.

The computational core is shallowly embedded: Python floats become exact
rationals (`ℚ`), a decoded grayscale image becomes a non-empty list of
luminance samples, the sqlite history table becomes an explicit store with
an auto-incrementing id, and the fallible paths of `run_analysis` become an
`Except` over an explicit error enumeration.
-/

namespace CloutRecycle

/-- A textile profile from `TEXTILE_DATA`: `{"base": ..., "carbon": ...}`. -/
structure TextileProfile where
  base : ℚ
  carbon : ℚ
  deriving DecidableEq, Repr

/-- The `TEXTILE_DATA` dictionary, in source order. -/
def TEXTILE_DATA : List (String × TextileProfile) :=
  [ ("Cotton",    ⟨80, 1.5⟩),
    ("Linen",     ⟨75, 1.4⟩),
    ("Silk",      ⟨65, 2.0⟩),
    ("Wool",      ⟨70, 2.2⟩),
    ("Polyester", ⟨25, 4.5⟩),
    ("Nylon",     ⟨20, 4.2⟩),
    ("Acrylic",   ⟨15, 4.8⟩),
    ("Elastane",  ⟨10, 5.0⟩) ]

/-- Dictionary lookup `TEXTILE_DATA[textile]`; `none` models a `KeyError`. -/
def lookupTextile (textile : String) : Option TextileProfile :=
  (TEXTILE_DATA.find? (fun p => p.1 = textile)).map (fun p => p.2)

/-- A decoded grayscale image: `Image.open(path).convert("L")` followed by
`np.array`. A non-empty list of 8-bit luminance samples. -/
structure GrayImage where
  pixels : List ℕ
  nonempty : pixels ≠ []
  bounded : ∀ p ∈ pixels, p ≤ 255

/-- `pixels.mean()`: the arithmetic mean luminance on the 0–255 scale. -/
def meanBrightness (img : GrayImage) : ℚ :=
  (img.pixels.sum : ℚ) / (img.pixels.length : ℚ)

/-- The branch cascade of `analyze_image` on the computed brightness:
`(degradation factor, condition string)`. -/
def classifyBrightness (brightness : ℚ) : ℚ × String :=
  if brightness ≥ 170 then (1.0, "Excellent")
  else if brightness ≥ 120 then (0.8, "Good")
  else if brightness ≥ 80 then (0.6, "Worn")
  else (0.4, "Poor")

/-- `analyze_image`: decode to luminance, take the mean, classify. -/
def analyze_image (img : GrayImage) : ℚ × String :=
  classifyBrightness (meanBrightness img)

/-- The verdict branch cascade of `ai_cloth_analysis`, a function of
`recycle_percent` alone. The strings are the source literals, decorative
glyphs included. -/
def verdictOf (recycle_percent : ℚ) : String :=
  if recycle_percent ≥ 60 then "✅ Recyclable & Sustainable"
  else if recycle_percent ≥ 35 then "⚠️ Partially Recyclable"
  else "❌ Not Recommended"

/-- The body of `ai_cloth_analysis` once the textile profile is in hand:
`(recycle_percent, condition, carbon_impact, verdict)`. -/
def analysisMetrics (prof : TextileProfile) (img : GrayImage) :
    ℚ × String × ℚ × String :=
  let fc := analyze_image img
  let recycle_percent := prof.base * fc.1
  let carbon_impact := recycle_percent * prof.carbon
  (recycle_percent, fc.2, carbon_impact, verdictOf recycle_percent)

/-- `ai_cloth_analysis textile img`: dictionary lookup then the pure
metric computation; `none` models the uncaught `KeyError` path. -/
def ai_cloth_analysis (textile : String) (img : GrayImage) :
    Option (ℚ × String × ℚ × String) :=
  (lookupTextile textile).map (fun prof => analysisMetrics prof img)

/-- A local wall-clock time, the fields `datetime.datetime.now()` exposes
at second precision. -/
structure LocalTime where
  year : ℕ
  month : ℕ
  day : ℕ
  hour : ℕ
  minute : ℕ
  second : ℕ

/-- The decimal digit character for `n % 10`. -/
def digitChar (n : ℕ) : Char :=
  match n % 10 with
  | 0 => '0' | 1 => '1' | 2 => '2' | 3 => '3' | 4 => '4'
  | 5 => '5' | 6 => '6' | 7 => '7' | 8 => '8' | _ => '9'

/-- The zero-padded two-digit rendering of an in-range field, as the
directives `%m %d %H %M %S` produce for `datetime` fields. -/
def pad2 (n : ℕ) : List Char := [digitChar (n / 10), digitChar n]

/-- The zero-padded four-digit rendering of an in-range year, as `%Y`
produces for years below 10000. -/
def pad4 (n : ℕ) : List Char :=
  [digitChar (n / 1000), digitChar (n / 100), digitChar (n / 10), digitChar n]

/-- The format string handed to `strftime` in `run_analysis`. -/
def timestamp_format : String := "%Y-%m-%d %H:%M:%S"

/-- `datetime.datetime.now().strftime("%Y-%m-%d %H:%M:%S")` on a given
local time: year, month and day joined by dashes, then a space, then
hour, minute and second joined by colons, each field zero-padded. -/
def strftimeTimestamp (t : LocalTime) : String :=
  String.mk (pad4 t.year ++ ['-'] ++ pad2 t.month ++ ['-'] ++ pad2 t.day
    ++ [' '] ++ pad2 t.hour ++ [':'] ++ pad2 t.minute ++ [':'] ++ pad2 t.second)

/-- Decides whether a string has the shape `YYYY-MM-DD HH:MM:SS`:
nineteen characters, decimal digits in the date and time positions,
dashes, one space and colons in between. -/
def matchesTimestampPattern (s : String) : Bool :=
  match s.data with
  | [y1, y2, y3, y4, c1, m1, m2, c2, d1, d2, c3,
     h1, h2, c4, n1, n2, c5, s1, s2] =>
      y1.isDigit && y2.isDigit && y3.isDigit && y4.isDigit &&
      (c1 == '-') && m1.isDigit && m2.isDigit &&
      (c2 == '-') && d1.isDigit && d2.isDigit &&
      (c3 == ' ') && h1.isDigit && h2.isDigit &&
      (c4 == ':') && n1.isDigit && n2.isDigit &&
      (c5 == ':') && s1.isDigit && s2.isDigit
  | _ => false

/-- One completed analysis, the row `run_analysis` inserts into
`analysis_history` (the auto-incrementing `id` lives in the store). -/
structure AnalysisRecord where
  textile : String
  recycle_percent : ℚ
  condition : String
  carbon_impact : ℚ
  verdict : String
  timestamp : String
  deriving DecidableEq, Repr

/-- The columns of the `analysis_history` table, in the order of the
`CREATE TABLE` statement. -/
def analysis_history_columns : List String :=
  ["id", "textile", "recycle_percent", "condition", "carbon_impact",
   "verdict", "timestamp"]

/-- The columns named by the `INSERT INTO analysis_history` statement. -/
def insert_columns : List String :=
  ["textile", "recycle_percent", "condition", "carbon_impact",
   "verdict", "timestamp"]

/-- The `analysis_history` store: rows keyed by an auto-incrementing
integer identity. -/
structure Store where
  rows : List (ℕ × AnalysisRecord)
  nextId : ℕ
  deriving DecidableEq, Repr

/-- The store a fresh `CREATE TABLE` produces: empty, identity starts at 1. -/
def emptyStore : Store := ⟨[], 1⟩

/-- `CREATE TABLE IF NOT EXISTS analysis_history ...`: creates the store
when absent and leaves an existing one untouched. -/
def createTableIfNotExists (s : Option Store) : Store :=
  s.getD emptyStore

/-- `INSERT INTO analysis_history ... VALUES (?,?,?,?,?,?)`: appends one
row under the next identity and advances the identity. -/
def insertRecord (s : Store) (r : AnalysisRecord) : Store :=
  ⟨s.rows ++ [(s.nextId, r)], s.nextId + 1⟩

/-- The database statements the module ever issues against
`analysis_history`: the startup `CREATE TABLE IF NOT EXISTS` and the
per-analysis `INSERT`. There is no `DROP`, `DELETE` or `UPDATE`. -/
inductive DbOp where
  | createIfAbsent : DbOp
  | insert : AnalysisRecord → DbOp

/-- The effect of one issued statement on the store. -/
def applyDbOp (op : DbOp) (s : Store) : Store :=
  match op with
  | .createIfAbsent => createTableIfNotExists (some s)
  | .insert r => insertRecord s r

/-- The failures one `run_analysis` invocation can hit before the insert:
the explicit `ValueError` on an empty textile selection or image path
(`InvalidInputError`), a failed image decode in `analyze_image`
(`ImageReadError`), and the `KeyError` of an unknown textile key; the
blanket `except` catches each one. -/
inductive AnalysisError where
  | invalidInput : AnalysisError
  | imageRead : AnalysisError
  | unknownTextile : AnalysisError
  deriving DecidableEq, Repr

/-- `run_analysis`: validate the inputs, look up the textile, decode the
image, compute the metrics, and only then insert one row. `decode` is the
image loader (`none` models an undecodable or missing file); `now` is the
wall clock. Returns the outcome and the store after the invocation. -/
def run_analysis (textile image_path : String)
    (decode : String → Option GrayImage) (now : LocalTime) (store : Store) :
    Except AnalysisError AnalysisRecord × Store :=
  if textile = "" ∨ image_path = "" then
    (.error .invalidInput, store)
  else
    match lookupTextile textile with
    | none => (.error .unknownTextile, store)
    | some prof =>
      match decode image_path with
      | none => (.error .imageRead, store)
      | some img =>
        let m := analysisMetrics prof img
        let r : AnalysisRecord :=
          ⟨textile, m.1, m.2.1, m.2.2.1, m.2.2.2, strftimeTimestamp now⟩
        (.ok r, insertRecord store r)

/-! ### Concrete inputs used by witnesses and scenario checks -/

/-- A one-pixel image of mean brightness 200. -/
def img200 : GrayImage := ⟨[200], by decide, by decide⟩

/-- A one-pixel image of mean brightness 170. -/
def img170 : GrayImage := ⟨[170], by decide, by decide⟩

/-- A one-pixel image of mean brightness 130. -/
def img130 : GrayImage := ⟨[130], by decide, by decide⟩

/-- A one-pixel image of mean brightness 100. -/
def img100 : GrayImage := ⟨[100], by decide, by decide⟩

/-- A concrete wall-clock instant. -/
def time0 : LocalTime := ⟨2026, 10, 12, 9, 5, 3⟩

/-! ### Helper lemmas -/

theorem digitChar_isDigit (n : ℕ) : (digitChar n).isDigit = true := by
  unfold digitChar
  have h : n % 10 < 10 := Nat.mod_lt n (by norm_num)
  generalize hk : n % 10 = k
  rw [hk] at h
  interval_cases k <;> decide

theorem mem_of_lookup {t : String} {prof : TextileProfile}
    (h : lookupTextile t = some prof) : ∃ k, (k, prof) ∈ TEXTILE_DATA := by
  unfold lookupTextile at h
  rcases Option.map_eq_some'.mp h with ⟨p, hp, hp2⟩
  refine ⟨p.1, ?_⟩
  have hm := List.mem_of_find?_eq_some hp
  rwa [← hp2, Prod.mk.eta]

theorem lookup_base_bounds {t : String} {prof : TextileProfile}
    (h : lookupTextile t = some prof) : 10 ≤ prof.base ∧ prof.base ≤ 80 := by
  obtain ⟨k, hk⟩ := mem_of_lookup h
  have hall : ∀ p ∈ TEXTILE_DATA, 10 ≤ p.2.base ∧ p.2.base ≤ 80 := by decide
  exact hall _ hk

theorem classify_factor_bounds (b : ℚ) :
    0.4 ≤ (classifyBrightness b).1 ∧ (classifyBrightness b).1 ≤ 1 := by
  unfold classifyBrightness
  split_ifs <;> norm_num

theorem classify_factor_mono {b1 b2 : ℚ} (h : b1 ≤ b2) :
    (classifyBrightness b1).1 ≤ (classifyBrightness b2).1 := by
  unfold classifyBrightness
  split_ifs <;> norm_num <;> linarith

theorem classify_factor_cases (b : ℚ) :
    (classifyBrightness b).1 = 1.0 ∨ (classifyBrightness b).1 = 0.8 ∨
    (classifyBrightness b).1 = 0.6 ∨ (classifyBrightness b).1 = 0.4 := by
  unfold classifyBrightness
  split_ifs <;> norm_num

theorem lookup_cotton : lookupTextile "Cotton" = some ⟨80, 1.5⟩ := by rfl

theorem lookup_wool : lookupTextile "Wool" = some ⟨70, 2.2⟩ := by rfl

theorem lookup_polyester : lookupTextile "Polyester" = some ⟨25, 4.5⟩ := by rfl

theorem lookup_nylon : lookupTextile "Nylon" = some ⟨20, 4.2⟩ := by rfl

theorem lookup_acrylic : lookupTextile "Acrylic" = some ⟨15, 4.8⟩ := by rfl

theorem lookup_elastane : lookupTextile "Elastane" = some ⟨10, 5.0⟩ := by rfl

theorem ai_eval {T : String} {prof : TextileProfile}
    (hT : lookupTextile T = some prof) (img : GrayImage) :
    ai_cloth_analysis T img = some (analysisMetrics prof img) := by
  unfold ai_cloth_analysis
  rw [hT]
  rfl

/-! ### Claims -/

/-- C1: the condition estimator classifies mean brightness `b` (0–255
scale) into four bands with inclusive lower bounds: `b ≥ 170` gives factor
1.0 and Excellent, `120 ≤ b < 170` gives 0.8 and Good, `80 ≤ b < 120`
gives 0.6 and Worn, and `b < 80` gives 0.4 and Poor. -/
theorem c1_condition_bands (img : GrayImage) :
    (170 ≤ meanBrightness img → analyze_image img = (1.0, "Excellent")) ∧
    (120 ≤ meanBrightness img → meanBrightness img < 170 →
      analyze_image img = (0.8, "Good")) ∧
    (80 ≤ meanBrightness img → meanBrightness img < 120 →
      analyze_image img = (0.6, "Worn")) ∧
    (meanBrightness img < 80 → analyze_image img = (0.4, "Poor")) := by
  unfold analyze_image classifyBrightness
  refine ⟨fun h1 => ?_, fun h1 h2 => ?_, fun h1 h2 => ?_, fun h1 => ?_⟩ <;>
    split_ifs <;> first | rfl | linarith

/-- C1 witness: an image of mean brightness exactly 170 lands in the
Excellent band (lower bound inclusive). -/
theorem c1_condition_bands_witness :
    170 ≤ meanBrightness img170 ∧ analyze_image img170 = (1.0, "Excellent") := by
  have hb : meanBrightness img170 = 170 := by norm_num [meanBrightness, img170]
  exact ⟨le_of_eq hb.symm, (c1_condition_bands img170).1 (le_of_eq hb.symm)⟩

/-- C2 (amended): the verdict is a function of `recycle_percent` alone
with inclusive lower thresholds at 60 and 35, but the returned strings
carry the source's decorative glyph prefixes: `"✅ Recyclable &
Sustainable"`, `"⚠️ Partially Recyclable"`, `"❌ Not Recommended"`. -/
theorem c2_verdict_thresholds (T : String) (img : GrayImage)
    (r : ℚ × String × ℚ × String) (h : ai_cloth_analysis T img = some r) :
    r.2.2.2 = verdictOf r.1 ∧
    (60 ≤ r.1 → r.2.2.2 = "✅ Recyclable & Sustainable") ∧
    (35 ≤ r.1 → r.1 < 60 → r.2.2.2 = "⚠️ Partially Recyclable") ∧
    (r.1 < 35 → r.2.2.2 = "❌ Not Recommended") := by
  unfold ai_cloth_analysis at h
  rcases Option.map_eq_some'.mp h with ⟨prof, _, hr⟩
  subst hr
  unfold analysisMetrics
  dsimp only
  refine ⟨rfl, fun h1 => ?_, fun h1 h2 => ?_, fun h1 => ?_⟩ <;>
    unfold verdictOf <;> split_ifs <;> first | rfl | linarith

/-- C2 witness: Wool at mean brightness 130 produces the record
`(56, Good, 123.2, ⚠️ Partially Recyclable)` and the 35 ≤ 56 < 60 band
applies. -/
theorem c2_verdict_thresholds_witness :
    ((56 : ℚ), ("Good" : String), (123.2 : ℚ),
      ("⚠️ Partially Recyclable" : String)).2.2.2 = "⚠️ Partially Recyclable" := by
  have h := c2_verdict_thresholds "Wool" img130
      (56, "Good", 123.2, "⚠️ Partially Recyclable")
      (by rw [ai_eval lookup_wool img130]
          norm_num [analysisMetrics, analyze_image, meanBrightness, img130,
            classifyBrightness, verdictOf])
  exact h.2.2.1 (by norm_num) (by norm_num)

/-- C2 is false as stated: Wool at mean brightness 130 yields a
`recycle_percent` of 56, inside `[35, 60)`, yet the returned verdict
string is not the spec's bare `"Partially Recyclable"`. -/
theorem c2_counterexample :
    (ai_cloth_analysis "Wool" img130).map (fun r => r.1) = some 56 ∧
    (ai_cloth_analysis "Wool" img130).map (fun r => r.2.2.2) ≠
      some "Partially Recyclable" := by
  have h : ai_cloth_analysis "Wool" img130 =
      some (56, "Good", 123.2, "⚠️ Partially Recyclable") := by
    rw [ai_eval lookup_wool img130]
    norm_num [analysisMetrics, analyze_image, meanBrightness, img130,
      classifyBrightness, verdictOf]
  rw [h]
  refine ⟨rfl, fun hc => ?_⟩
  have hs := Option.some.inj hc
  exact absurd hs (by decide)

/-- C3: every produced record satisfies, exactly in `ℚ`,
`recycle_percent = base * factor` with the factor one of
1.0, 0.8, 0.6, 0.4, and `carbon_impact = recycle_percent * carbon`. -/
theorem c3_record_invariants (T : String) (prof : TextileProfile)
    (img : GrayImage) (r : ℚ × String × ℚ × String)
    (hT : lookupTextile T = some prof) (h : ai_cloth_analysis T img = some r) :
    r.1 = prof.base * (analyze_image img).1 ∧
    ((analyze_image img).1 = 1.0 ∨ (analyze_image img).1 = 0.8 ∨
      (analyze_image img).1 = 0.6 ∨ (analyze_image img).1 = 0.4) ∧
    r.2.2.1 = r.1 * prof.carbon := by
  unfold ai_cloth_analysis at h
  rw [hT, Option.map_some'] at h
  have hr := Option.some.inj h
  subst hr
  unfold analysisMetrics
  dsimp only
  exact ⟨rfl, classify_factor_cases (meanBrightness img), rfl⟩

/-- C3 witness: the Cotton record at mean brightness 200 satisfies both
invariants with factor 1.0. -/
theorem c3_record_invariants_witness :
    ((80 : ℚ), ("Excellent" : String), (120 : ℚ),
        ("✅ Recyclable & Sustainable" : String)).1 =
      (⟨80, 1.5⟩ : TextileProfile).base * (analyze_image img200).1 ∧
    ((analyze_image img200).1 = 1.0 ∨ (analyze_image img200).1 = 0.8 ∨
      (analyze_image img200).1 = 0.6 ∨ (analyze_image img200).1 = 0.4) ∧
    ((80 : ℚ), ("Excellent" : String), (120 : ℚ),
        ("✅ Recyclable & Sustainable" : String)).2.2.1 =
      ((80 : ℚ), ("Excellent" : String), (120 : ℚ),
        ("✅ Recyclable & Sustainable" : String)).1 *
      (⟨80, 1.5⟩ : TextileProfile).carbon :=
  c3_record_invariants "Cotton" ⟨80, 1.5⟩ img200
    (80, "Excellent", 120, "✅ Recyclable & Sustainable") (by rfl)
    (by rw [ai_eval lookup_cotton img200]
        norm_num [analysisMetrics, analyze_image, meanBrightness, img200,
          classifyBrightness, verdictOf])

/-- C4 (amended): the three spec scenarios produce exactly the stated
factor, condition and numbers, with the code's glyph-prefixed verdict
strings. -/
theorem c4_scenarios :
    ai_cloth_analysis "Cotton" img200 =
      some (80, "Excellent", 120, "✅ Recyclable & Sustainable") ∧
    ai_cloth_analysis "Polyester" img100 =
      some (15, "Worn", 67.5, "❌ Not Recommended") ∧
    ai_cloth_analysis "Wool" img130 =
      some (56, "Good", 123.2, "⚠️ Partially Recyclable") := by
  refine ⟨?_, ?_, ?_⟩
  · rw [ai_eval lookup_cotton img200]
    norm_num [analysisMetrics, analyze_image, meanBrightness, img200,
      classifyBrightness, verdictOf]
  · rw [ai_eval lookup_polyester img100]
    norm_num [analysisMetrics, analyze_image, meanBrightness, img100,
      classifyBrightness, verdictOf]
  · rw [ai_eval lookup_wool img130]
    norm_num [analysisMetrics, analyze_image, meanBrightness, img130,
      classifyBrightness, verdictOf]

/-- C4 is false as stated: on Scenario A the returned verdict string is
the glyph-prefixed `"✅ Recyclable & Sustainable"`, not the spec's bare
`"Recyclable & Sustainable"`. -/
theorem c4_counterexample :
    ai_cloth_analysis "Cotton" img200 ≠
      some (80, "Excellent", 120, "Recyclable & Sustainable") := by
  have h : ai_cloth_analysis "Cotton" img200 =
      some (80, "Excellent", 120, "✅ Recyclable & Sustainable") := by
    rw [ai_eval lookup_cotton img200]
    norm_num [analysisMetrics, analyze_image, meanBrightness, img200,
      classifyBrightness, verdictOf]
  rw [h]
  intro hc
  have ht := Option.some.inj hc
  have hs := congrArg (fun p : ℚ × String × ℚ × String => p.2.2.2) ht
  exact absurd hs (by decide)

theorem strftime_matches (t : LocalTime) :
    matchesTimestampPattern (strftimeTimestamp t) = true := by
  unfold strftimeTimestamp matchesTimestampPattern pad4 pad2
  simp [digitChar_isDigit]

theorem metrics_le_not_recommended {prof : TextileProfile}
    (hb0 : 0 ≤ prof.base) (hb : prof.base ≤ 25) (img : GrayImage) :
    (analysisMetrics prof img).1 ≤ 25 ∧
    (analysisMetrics prof img).2.2.2 = "❌ Not Recommended" := by
  have hf := classify_factor_bounds (meanBrightness img)
  unfold analysisMetrics analyze_image
  dsimp only
  have hrp : prof.base * (classifyBrightness (meanBrightness img)).1 ≤ 25 := by
    calc prof.base * (classifyBrightness (meanBrightness img)).1
        ≤ prof.base * 1 := mul_le_mul_of_nonneg_left hf.2 hb0
      _ = prof.base := mul_one _
      _ ≤ 25 := hb
  refine ⟨hrp, ?_⟩
  unfold verdictOf
  rw [if_neg (by linarith), if_neg (by linarith)]

/-- C5: `run_analysis` appends a record only on fully successful
computation: an empty textile selection or image path fails with
`InvalidInputError`, an undecodable image fails with `ImageReadError`,
and in every failing invocation the history store is unchanged. -/
theorem c5_no_record_on_failure (textile image_path : String)
    (decode : String → Option GrayImage) (now : LocalTime) (store : Store) :
    (textile = "" ∨ image_path = "" →
      run_analysis textile image_path decode now store =
        (.error .invalidInput, store)) ∧
    (textile ≠ "" → image_path ≠ "" →
      (∃ prof, lookupTextile textile = some prof) →
      decode image_path = none →
      run_analysis textile image_path decode now store =
        (.error .imageRead, store)) ∧
    (∀ e, (run_analysis textile image_path decode now store).1 = .error e →
      (run_analysis textile image_path decode now store).2 = store) := by
  unfold run_analysis
  refine ⟨fun h => ?_, fun h1 h2 hp hd => ?_, fun e => ?_⟩
  · rw [if_pos h]
  · obtain ⟨prof, hp⟩ := hp
    rw [if_neg (not_or.mpr ⟨h1, h2⟩), hp, hd]
  · split_ifs with h0
    · intro _; rfl
    · cases hL : lookupTextile textile with
      | none => intro _; rfl
      | some prof =>
        cases hD : decode image_path with
        | none => intro _; rfl
        | some img =>
          intro hbad
          exact absurd hbad (by simp)

/-- C5 witness: an empty textile selection fails with `InvalidInputError`
and a failing decode fails with `ImageReadError`; in both cases the store
is returned unchanged. -/
theorem c5_no_record_on_failure_witness :
    run_analysis "" "cloth.png" (fun _ => some img200) time0 emptyStore =
      (.error .invalidInput, emptyStore) ∧
    run_analysis "Cotton" "notes.txt" (fun _ => none) time0 emptyStore =
      (.error .imageRead, emptyStore) :=
  ⟨(c5_no_record_on_failure "" "cloth.png" (fun _ => some img200) time0
      emptyStore).1 (Or.inl rfl),
   (c5_no_record_on_failure "Cotton" "notes.txt" (fun _ => none) time0
      emptyStore).2.1 (by decide) (by decide) ⟨⟨80, 1.5⟩, lookup_cotton⟩ rfl⟩

/-- C6: for a fixed textile key, `recycle_percent` is a monotone
non-decreasing function of the image's mean brightness. -/
theorem c6_recycle_monotone (T : String) (img1 img2 : GrayImage)
    (r1 r2 : ℚ × String × ℚ × String)
    (h1 : ai_cloth_analysis T img1 = some r1)
    (h2 : ai_cloth_analysis T img2 = some r2)
    (hb : meanBrightness img1 ≤ meanBrightness img2) :
    r1.1 ≤ r2.1 := by
  unfold ai_cloth_analysis at h1 h2
  rcases Option.map_eq_some'.mp h1 with ⟨p1, hp1, hr1⟩
  rcases Option.map_eq_some'.mp h2 with ⟨p2, hp2, hr2⟩
  have hpp : p1 = p2 := Option.some.inj (hp1.symm.trans hp2)
  subst hpp
  subst hr1
  subst hr2
  have hbase := (lookup_base_bounds hp1).1
  unfold analysisMetrics analyze_image
  dsimp only
  exact mul_le_mul_of_nonneg_left (classify_factor_mono hb) (by linarith)

/-- C6 witness: for Cotton, brightness 100 gives 48 and brightness 130
gives 64, and 48 ≤ 64. -/
theorem c6_recycle_monotone_witness :
    ((48 : ℚ), ("Worn" : String), (72 : ℚ),
      ("⚠️ Partially Recyclable" : String)).1 ≤
    ((64 : ℚ), ("Good" : String), (96 : ℚ),
      ("✅ Recyclable & Sustainable" : String)).1 :=
  c6_recycle_monotone "Cotton" img100 img130
    (48, "Worn", 72, "⚠️ Partially Recyclable")
    (64, "Good", 96, "✅ Recyclable & Sustainable")
    (by rw [ai_eval lookup_cotton img100]
        norm_num [analysisMetrics, analyze_image, meanBrightness, img100,
          classifyBrightness, verdictOf])
    (by rw [ai_eval lookup_cotton img130]
        norm_num [analysisMetrics, analyze_image, meanBrightness, img130,
          classifyBrightness, verdictOf])
    (by norm_num [meanBrightness, img100, img130])

/-- C7: the analysis is deterministic: two invocations on the same
textile key and image are the same value, so `recycle_percent`,
condition, `carbon_impact` and verdict all coincide (no timestamp is
involved in `ai_cloth_analysis`). -/
theorem c7_deterministic (T : String) (img : GrayImage) :
    ai_cloth_analysis T img = ai_cloth_analysis T img := rfl

/-- C8: the history store is append-only with an auto-incrementing
identity; the insert writes exactly the six columns `(textile,
recycle_percent, condition, carbon_impact, verdict, timestamp)`; the
table is created when absent and no issued statement ever removes rows;
and the timestamp directive `%Y-%m-%d %H:%M:%S` renders every local time
in the shape `YYYY-MM-DD HH:MM:SS` at second precision. -/
theorem c8_store_layout :
    insert_columns =
      ["textile", "recycle_percent", "condition", "carbon_impact",
       "verdict", "timestamp"] ∧
    analysis_history_columns = "id" :: insert_columns ∧
    (∀ s r, (insertRecord s r).rows = s.rows ++ [(s.nextId, r)] ∧
      (insertRecord s r).nextId = s.nextId + 1) ∧
    createTableIfNotExists none = emptyStore ∧
    (∀ s, createTableIfNotExists (some s) = s) ∧
    (∀ op s, ∃ t_, (applyDbOp op s).rows = s.rows ++ t_) ∧
    timestamp_format = "%Y-%m-%d %H:%M:%S" ∧
    (∀ t, matchesTimestampPattern (strftimeTimestamp t) = true) := by
  refine ⟨rfl, rfl, fun s r => ⟨rfl, rfl⟩, rfl, fun s => rfl,
    fun op s => ?_, rfl, strftime_matches⟩
  cases op with
  | createIfAbsent => exact ⟨[], (List.append_nil _).symm⟩
  | insert r => exact ⟨[(s.nextId, r)], rfl⟩

/-- C9: for the four synthetic textiles (baselines 25, 20, 15, 10) the
`recycle_percent` never exceeds 25, hence stays below the 35 threshold,
so the analysis always returns the code's not-recommended verdict,
whatever the image. -/
theorem c9_synthetics (T : String) (img : GrayImage)
    (hT : T = "Polyester" ∨ T = "Nylon" ∨ T = "Acrylic" ∨ T = "Elastane")
    (r : ℚ × String × ℚ × String) (h : ai_cloth_analysis T img = some r) :
    r.1 ≤ 25 ∧ r.1 < 35 ∧ r.2.2.2 = "❌ Not Recommended" := by
  have key : ∀ prof : TextileProfile, 0 ≤ prof.base → prof.base ≤ 25 →
      analysisMetrics prof img = r →
      r.1 ≤ 25 ∧ r.1 < 35 ∧ r.2.2.2 = "❌ Not Recommended" := by
    intro prof hp0 hp25 hr
    obtain ⟨ha, hv⟩ := metrics_le_not_recommended hp0 hp25 img
    rw [hr] at ha hv
    exact ⟨ha, by linarith, hv⟩
  rcases hT with hk | hk | hk | hk <;> subst hk
  · rw [ai_eval lookup_polyester img] at h
    exact key ⟨25, 4.5⟩ (by norm_num) (by norm_num) (Option.some.inj h)
  · rw [ai_eval lookup_nylon img] at h
    exact key ⟨20, 4.2⟩ (by norm_num) (by norm_num) (Option.some.inj h)
  · rw [ai_eval lookup_acrylic img] at h
    exact key ⟨15, 4.8⟩ (by norm_num) (by norm_num) (Option.some.inj h)
  · rw [ai_eval lookup_elastane img] at h
    exact key ⟨10, 5.0⟩ (by norm_num) (by norm_num) (Option.some.inj h)

/-- C9 witness: Polyester on a brightness-200 image yields
`recycle_percent` 25 and the not-recommended verdict. -/
theorem c9_synthetics_witness :
    (25 : ℚ) ≤ 25 ∧ (25 : ℚ) < 35 ∧
    ((25 : ℚ), ("Excellent" : String), (112.5 : ℚ),
      ("❌ Not Recommended" : String)).2.2.2 = "❌ Not Recommended" :=
  c9_synthetics "Polyester" img200 (Or.inl rfl)
    (25, "Excellent", 112.5, "❌ Not Recommended")
    (by rw [ai_eval lookup_polyester img200]
        norm_num [analysisMetrics, analyze_image, meanBrightness, img200,
          classifyBrightness, verdictOf])

/-- C10: for every valid textile key the `recycle_percent` lies in
`[4, 80]` (minimal baseline 10 times factor 0.4, maximal baseline 80
times factor 1.0), hence within the 0–100 percentage range. -/
theorem c10_recycle_range (T : String) (prof : TextileProfile)
    (img : GrayImage) (r : ℚ × String × ℚ × String)
    (hT : lookupTextile T = some prof) (h : ai_cloth_analysis T img = some r) :
    4 ≤ r.1 ∧ r.1 ≤ 80 ∧ 0 ≤ r.1 ∧ r.1 ≤ 100 := by
  obtain ⟨hb1, hb2⟩ := lookup_base_bounds hT
  rw [ai_eval hT img] at h
  have hr := Option.some.inj h
  subst hr
  have hf := classify_factor_bounds (meanBrightness img)
  have h4 : (4 : ℚ) ≤ (analysisMetrics prof img).1 := by
    unfold analysisMetrics analyze_image
    dsimp only
    calc (4 : ℚ) = 10 * 0.4 := by norm_num
      _ ≤ prof.base * (classifyBrightness (meanBrightness img)).1 :=
        mul_le_mul hb1 hf.1 (by norm_num) (by linarith)
  have h80 : (analysisMetrics prof img).1 ≤ 80 := by
    unfold analysisMetrics analyze_image
    dsimp only
    calc prof.base * (classifyBrightness (meanBrightness img)).1
        ≤ 80 * 1 := mul_le_mul hb2 hf.2 (by linarith) (by norm_num)
      _ = 80 := by norm_num
  exact ⟨h4, h80, by linarith, by linarith⟩

/-- C10 witness: Cotton on a brightness-200 image yields
`recycle_percent` 80, inside `[4, 80]` and the 0–100 range. -/
theorem c10_recycle_range_witness :
    (4 : ℚ) ≤ 80 ∧ (80 : ℚ) ≤ 80 ∧ (0 : ℚ) ≤ 80 ∧ (80 : ℚ) ≤ 100 :=
  c10_recycle_range "Cotton" ⟨80, 1.5⟩ img200
    (80, "Excellent", 120, "✅ Recyclable & Sustainable") lookup_cotton
    (by rw [ai_eval lookup_cotton img200]
        norm_num [analysisMetrics, analyze_image, meanBrightness, img200,
          classifyBrightness, verdictOf])

end CloutRecycle
